import Mathlib

/-
Verification development for the camera-control repository (src/main.py).

The development is a shallow embedding of the parts of src/main.py that the
checked properties talk about:

Layer 1 (feature-node level): a camera is a partial map from node names to
feature nodes carrying availability/readability/writability flags, an integer
maximum, a stored value and (for enumeration nodes) a map from entry names to
entry nodes.  The functions change_enum_setting (main.py lines 40-69),
change_gain (lines 72-101) and configure_camera (lines 103-217, with its
gated Width/Height maximum writes modelled by setIntMax) are translated as
state transformers over this camera state.  Console prints that report the
outcome of an individual setting are modelled by explicit result/report
values (the source communicates these outcomes only through print calls).
Executions in which a driver call raises PySpin.SpinnakerException inside
configure_camera are the only ones in which the source returns False; the
layer-1 model covers the exception-free executions.

Layer 2 (session level): capture (main.py lines 423-511) and main
(lines 514-591) are translated as functions that produce the sequence of
driver calls made on the fleet (Init, BeginAcquisition, GetNextImage, Save,
Release, EndAcquisition, DeInit) together with the session outcome.  Each
device is given by its serial number plus oracles for the outcome of
print_device_info, of configure_camera, and of each frame of
acquire_images (lines 266-420).  Python exceptions that no handler in
main.py catches (ValueError from the config scan, NameError from an
undefined gain variable, IndexError from list indexing) are modelled as an
explicit crash outcome: they propagate out of capture and main, so the
process aborts without running any of the remaining calls.  Reading
input.tsv, the directory prompt and os.mkdir are taken to succeed; the
trace model starts from the already-read list of config lines.

The config-file scan of capture (lines 453-459) is modelled faithfully to
Python semantics: lines come from readlines() and therefore keep their
trailing newline; str.split("\t") is modelled by pySplitTab; s[:-1] by
pyStripLast; out-of-range indexing raises IndexError.
-/

/-! ## Layer 1: feature-node model -/

/-- Value stored in a feature node: integer-valued nodes (enumerations,
Width, Height) hold gInt, the Gain float node receives the value the source
passes it, which is the string taken from the config file. -/
inductive GenValue
  | gInt (v : Int)
  | gStr (s : String)
deriving DecidableEq

/-- Entry node of an enumeration: availability/readability flags and the
integer code returned by GetValue (main.py line 48). -/
structure EnumEntry where
  available : Bool
  readable : Bool
  intValue : Int

/-- Feature node: flags queried by PySpin.IsAvailable / IsReadable /
IsWritable, the maximum returned by GetMax, the stored value, and for
enumeration nodes the GetEntryByName map (a missing entry models the null
pointer whose IsAvailable is false). -/
structure FNode where
  available : Bool
  readable : Bool
  writable : Bool
  maxVal : Int
  value : GenValue
  entries : String → Option EnumEntry

/-- Camera state: the GenICam nodemap, a partial map from node name to node
(GetNode returning a missing node models the null pointer case). -/
structure Camera where
  nodemap : String → Option FNode

/-- Write a value to the named node, leaving every other node and all the
node's flags, maximum and entries unchanged (SetIntValue / SetValue only
change the stored value). -/
def setNodeValue (cam : Camera) (name : String) (v : GenValue) : Camera :=
  { nodemap := fun n =>
      if n = name then (cam.nodemap name).map (fun nd => { nd with value := v })
      else cam.nodemap n }

/-- Outcome of change_enum_setting, reported by the source through print
calls: the success print at lines 50-55, the entry print at lines 57-61,
the setting print at lines 62-67 (and the except print at line 69 when the
null-pointer GetDisplayName raises, which also performs no write). -/
inductive EnumSetResult
  | ok (written : Int)
  | settingUnavailable
  | entryUnavailable
deriving DecidableEq

/-- Translation of change_enum_setting (main.py lines 40-69): resolve the
enumeration node, gate on IsAvailable and IsWritable, resolve the entry by
name, gate on IsAvailable and IsReadable, then write the entry's integer
value to the enumeration node. -/
def change_enum_setting (cam : Camera) (setting choice : String) :
    EnumSetResult × Camera :=
  match cam.nodemap setting with
  | none => (.settingUnavailable, cam)
  | some node =>
    if node.available && node.writable then
      match node.entries choice with
      | none => (.entryUnavailable, cam)
      | some entry =>
        if entry.available && entry.readable then
          (.ok entry.intValue, setNodeValue cam setting (.gInt entry.intValue))
        else (.entryUnavailable, cam)
    else (.settingUnavailable, cam)

/-- Outcome of change_gain, matching the four print messages of main.py
lines 93-100. -/
inductive GainResult
  | ok
  | floatUnavailable
  | entryUnavailable
  | enumUnavailable
deriving DecidableEq

/-- Translation of change_gain (main.py lines 72-101): gate the GainAuto
enumeration, resolve its Off entry, write the entry value to GainAuto, then
gate the Gain node and write the gain argument to it.  The source passes
the gain argument through from the config file as a string, so the write
stores gStr. -/
def change_gain (cam : Camera) (gain : String) : GainResult × Camera :=
  match cam.nodemap "GainAuto" with
  | none => (.enumUnavailable, cam)
  | some nga =>
    if nga.available && nga.writable then
      match nga.entries "Off" with
      | none => (.entryUnavailable, cam)
      | some e =>
        if e.available && e.readable then
          let cam1 := setNodeValue cam "GainAuto" (.gInt e.intValue)
          match cam1.nodemap "Gain" with
          | none => (.floatUnavailable, cam1)
          | some ng =>
            if ng.available && ng.writable then
              (.ok, setNodeValue cam1 "Gain" (.gStr gain))
            else (.floatUnavailable, cam1)
        else (.entryUnavailable, cam)
    else (.enumUnavailable, cam)

/-- Translation of the gated integer-maximum writes of configure_camera
(Width at main.py lines 166-174, Height at lines 181-188): if the node is
available and writable, write its GetMax value; the Bool records whether
the write happened (the else branch only prints "not available"). -/
def setIntMax (cam : Camera) (name : String) : Bool × Camera :=
  match cam.nodemap name with
  | none => (false, cam)
  | some nd =>
    if nd.available && nd.writable then (true, setNodeValue cam name (.gInt nd.maxVal))
    else (false, cam)

/-- One setting step of configure_camera. -/
inductive SettingOp
  | enum (setting choice : String)
  | intMax (name : String)
  | gainOp
deriving DecidableEq

/-- Report of one setting step, modelling the print call the source makes
for that step. -/
inductive Report
  | enumSet (setting choice : String) (r : EnumSetResult)
  | intSet (name : String) (wrote : Bool)
  | gainSet (r : GainResult)
deriving DecidableEq

/-- Execute one setting step of configure_camera. -/
def applyOp (g : String) (cam : Camera) : SettingOp → Report × Camera
  | .enum s c =>
    let r := change_enum_setting cam s c
    (.enumSet s c r.1, r.2)
  | .intMax n =>
    let r := setIntMax cam n
    (.intSet n r.1, r.2)
  | .gainOp =>
    let r := change_gain cam g
    (.gainSet r.1, r.2)

/-- The setting steps of configure_camera in source order (main.py lines
122, 166, 181, 192, 193, 194, 197, 199, 211). -/
def configOps : List SettingOp :=
  [.enum "PixelFormat" "Mono16", .intMax "Width", .intMax "Height",
   .enum "TriggerMode" "Off", .enum "TriggerSource" "Line3",
   .enum "TriggerMode" "On", .enum "SensorShutterMode" "GlobalReset",
   .gainOp, .enum "AcquisitionMode" "SingleFrame"]

/-- Run a list of setting steps in order, collecting the reports. -/
def runOps (g : String) (cam : Camera) : List SettingOp → List Report × Camera
  | [] => ([], cam)
  | op :: rest =>
    let r := applyOp g cam op
    let t := runOps g r.2 rest
    (r.1 :: t.1, t.2)

/-- Result of configure_camera: the returned Bool, the final camera state,
and the per-setting reports (printed by the source, never folded into the
returned Bool). -/
structure ConfigResult where
  success : Bool
  cam : Camera
  reports : List Report

/-- Translation of configure_camera (main.py lines 103-217) for the
exception-free executions: result is set to True at line 119 and returned
unchanged at line 217; every setting step only prints its own outcome. -/
def configure_camera (cam : Camera) (gain : String) : ConfigResult :=
  let r := runOps gain cam configOps
  { success := true, cam := r.2, reports := r.1 }

/-- Does a setting step target the named node with its write gate?  The
gain step's own gate is the GainAuto enumeration (main.py line 81); its
conditional Gain write is treated separately. -/
def opTargets : SettingOp → String → Bool
  | .enum s _, n => s == n
  | .intMax m, n => m == n
  | .gainOp, n => n == "GainAuto"

/-- Does this report record a failure for the named node?  Mirrors which
print message the source emits for that node. -/
def reportFails (n : String) : Report → Bool
  | .enumSet s _ r =>
    s == n && (match r with | EnumSetResult.ok _ => false | _ => true)
  | .intSet m w => m == n && !w
  | .gainSet r =>
    (n == "GainAuto" &&
      (match r with
       | GainResult.enumUnavailable => true
       | GainResult.entryUnavailable => true
       | _ => false))
    || (n == "Gain" &&
      (match r with | GainResult.floatUnavailable => true | _ => false))

/-- The node names configure_camera unconditionally attempts to write
(the Gain float node is attempted only after the GainAuto write
succeeded, so it is listed separately in the theorem). -/
def cfgNodeNames : List String :=
  ["PixelFormat", "Width", "Height", "TriggerMode", "TriggerSource",
   "SensorShutterMode", "GainAuto", "AcquisitionMode"]

/-! ## Config-file scan model (capture, main.py lines 437-463) -/

/-- Python str.split("\t") on the character list: splitting on every tab,
keeping empty fields, never returning an empty list. -/
def splitTabAux : List Char → List (List Char)
  | [] => [[]]
  | c :: rest =>
    let r := splitTabAux rest
    if c = '\t' then [] :: r
    else
      match r with
      | [] => [[c]]
      | h :: t => (c :: h) :: t

/-- Python line.split("\t"). -/
def pySplitTab (s : String) : List String :=
  (splitTabAux s.data).map String.mk

/-- Python line.split("\t")[k], with none for an IndexError. -/
def pyField (line : String) (k : Nat) : Option String :=
  (pySplitTab line).get? k

/-- Python s[:-1]: drop the final character (the trailing newline kept by
readlines). -/
def pyStripLast (s : String) : String :=
  String.mk s.data.dropLast

/-- Uncaught Python exceptions of capture: ValueError raised at main.py
line 459, IndexError from lines[i+1] or split(...)[1], NameError from the
undefined gain variable at line 472.  None of them is caught by the
except PySpin.SpinnakerException handlers, so they abort the session. -/
inductive PyErr
  | valueError
  | indexError
  | nameError
deriving DecidableEq

/-- Result of the per-device config scan: the gain variable after the scan
(none when it is still undefined), or an uncaught exception. -/
inductive ScanRes
  | ok (g : Option String)
  | err (e : PyErr)
deriving DecidableEq

/-- Translation of the scan loop of capture (main.py lines 453-459): for
every line whose first tab field is DeviceSerialNumber and whose second tab
field equals the serial number, require the next line to have first field
Gain and take its second field without the final character; otherwise raise
ValueError.  The accumulator is the Python gain variable, which persists
across the loop (and across devices).  Note readlines() keeps each line's
trailing newline, so the second field of a newline-terminated serial line
ends in a newline character. -/
def gainScanAux (alll : List String) (serial : String) :
    List (Nat × String) → Option String → ScanRes
  | [], acc => .ok acc
  | (i, line) :: rest, acc =>
    if pyField line 0 = some "DeviceSerialNumber" then
      match pyField line 1 with
      | none => .err .indexError
      | some f1 =>
        if f1 = serial then
          match alll.get? (i + 1) with
          | none => .err .indexError
          | some next =>
            if pyField next 0 = some "Gain" then
              match pyField next 1 with
              | none => .err .indexError
              | some g => gainScanAux alll serial rest (some (pyStripLast g))
            else .err .valueError
        else gainScanAux alll serial rest acc
    else gainScanAux alll serial rest acc

/-- The full scan of the config lines for one device. -/
def gainScan (lines : List String) (serial : String) (acc : Option String) :
    ScanRes :=
  gainScanAux lines serial lines.enum acc

/-- Follows the spec's words (section 4.3 lookupGain): each config line is
KEY tab VALUE with the line terminator stripped; the block whose
DeviceSerialNumber value exactly matches the identity defines the gain as
the value of the immediately following Gain line; no matching block means
Absent. -/
def stripNewline (s : String) : String :=
  if s.data.getLast? = some '\n' then String.mk s.data.dropLast else s

/-- Follows the spec's words (section 6): a config line parsed as a
(key, value) pair, newline stripped. -/
def specLineKV (line : String) : Option (String × String) :=
  match pySplitTab (stripNewline line) with
  | [k, v] => some (k, v)
  | _ => none

/-- Follows the spec's words (section 4.3): lookupGain over the config
lines. -/
def lookupGainSpec : List String → String → Option String
  | [], _ => none
  | [_], _ => none
  | l1 :: l2 :: rest, identity =>
    if specLineKV l1 = some ("DeviceSerialNumber", identity) then
      match specLineKV l2 with
      | some kv => if kv.1 = "Gain" then some kv.2 else none
      | none => none
    else lookupGainSpec (l2 :: rest) identity

/-! ## Layer 2: session trace model (acquire_images, capture, main) -/

/-- Number of images to grab (main.py line 7). -/
def NUM_IMAGES : Nat := 1

/-- Outcome of one iteration of the retrieval loop of acquire_images for a
given frame index: the frame arrives complete and Save succeeds; the frame
is incomplete (IsIncomplete true); Save raises SpinnakerException; or
GetNextImage itself raises (timeout or device fault). -/
inductive FrameOutcome
  | complete
  | incomplete
  | saveFails
  | retrieveFails
deriving DecidableEq

/-- Driver calls made on the fleet, indexed by the device's position in the
camera list. -/
inductive Ev
  | initCam (d : Nat)
  | beginAcq (d : Nat)
  | getNextImage (d : Nat) (i : Nat)
  | saveImage (d : Nat) (i : Nat)
  | releaseFrame (d : Nat) (i : Nat)
  | endAcq (d : Nat)
  | deInit (d : Nat)
deriving DecidableEq

/-- Translation of the retrieval loop of acquire_images (main.py lines
324-414), for device d, frame outcomes fr, next frame index i and n
iterations left.  On a complete frame the image is saved and released
(lines 399, 408); on an incomplete frame the status is only printed and the
loop continues, with no Release call (lines 347-351); when GetNextImage or
Save raises, the handler at lines 411-414 calls EndAcquisition and returns
False, again with no Release call. -/
def acquireImagesAux (d : Nat) (fr : Nat → FrameOutcome) :
    Nat → Nat → List Ev × Bool
  | _, 0 => ([], true)
  | i, Nat.succ n =>
    match fr i with
    | .retrieveFails => ([.getNextImage d i, .endAcq d], false)
    | .saveFails => ([.getNextImage d i, .endAcq d], false)
    | .incomplete =>
      let r := acquireImagesAux d fr (i + 1) n
      (.getNextImage d i :: r.1, r.2)
    | .complete =>
      let r := acquireImagesAux d fr (i + 1) n
      (.getNextImage d i :: .saveImage d i :: .releaseFrame d i :: r.1, r.2)

/-- acquire_images (main.py lines 266-420) for one device: the retrieval
loop run NUM_IMAGES times from frame index 0, returning the driver calls
made and the Bool result. -/
def acquire_images (d : Nat) (fr : Nat → FrameOutcome) : List Ev × Bool :=
  acquireImagesAux d fr 0 NUM_IMAGES

/-- One device of the fleet: its DeviceSerialNumber, the result of
print_device_info for it (False exactly when a SpinnakerException is
raised there, main.py lines 259-261), the result of configure_camera for it
(False exactly when a SpinnakerException is raised there, lines 213-215),
and the outcome of each frame of its acquisition loop. -/
structure DevSpec where
  serial : String
  infoOk : Bool
  configOk : Bool
  frames : Nat → FrameOutcome

/-- Outcome of the per-device configuration loop of capture (main.py lines
442-473): the loop completes and control reaches the acquisition phase with
the accumulated result; configure_camera returned False and capture
returned False at line 473; or an uncaught exception aborts the session. -/
inductive CapturePhase
  | proceed (result : Bool)
  | earlyFalse
  | crash (e : PyErr)
deriving DecidableEq

/-- Translation of the configuration loop of capture (main.py lines
442-473).  Per device, in order: result &= print_device_info; the config
scan (which can raise); the warning print when gain is still undefined
(lines 460-463); cam.Init() (line 466); then configure_camera(cam, gain),
which raises NameError when the gain variable was never assigned (the
warning at line 463 does not define it), and whose False result makes
capture return False at line 473.  The gain variable persists across loop
iterations, so a device without a matching block silently reuses the
previous device's gain. -/
def configPhase (lines : List String) :
    List DevSpec → Nat → Option String → Bool → List Ev × CapturePhase
  | [], _, _, r => ([], .proceed r)
  | d :: rest, i, gain, r =>
    match gainScan lines d.serial gain with
    | .err e => ([], .crash e)
    | .ok none => ([Ev.initCam i], .crash .nameError)
    | .ok (some g) =>
      if d.configOk then
        let t := configPhase lines rest (i + 1) (some g) (r && d.infoOk)
        (Ev.initCam i :: t.1, t.2)
      else ([Ev.initCam i], .earlyFalse)

/-- Translation of the acquisition loop of capture (main.py lines 496-497):
acquire_images for each device in order, each result folded into the
session result with &=. -/
def acqPhase : List DevSpec → Nat → List Ev × Bool
  | [], _ => ([], true)
  | d :: rest, i =>
    let a := acquire_images i d.frames
    let t := acqPhase rest (i + 1)
    (a.1 ++ t.1, a.2 && t.2)

/-- The BeginAcquisition loop of capture (main.py lines 494-495). -/
def beginPhase (n : Nat) : List Ev :=
  (List.range n).map Ev.beginAcq

/-- The teardown loop of capture (main.py lines 503-505): EndAcquisition
then DeInit for each device. -/
def teardownPhase (n : Nat) : List Ev :=
  ((List.range n).map (fun i => [Ev.endAcq i, Ev.deInit i])).flatten

/-- Overall outcome of capture. -/
inductive CaptureOutcome
  | done (result : Bool)
  | earlyFalse
  | crash (e : PyErr)
deriving DecidableEq

/-- Translation of capture (main.py lines 423-511): the configuration loop,
then on success the BeginAcquisition loop over the whole fleet, the
acquisition loop, and the teardown loop.  The two early exits of the
configuration loop skip everything after them inside capture. -/
def capture (devs : List DevSpec) (lines : List String) :
    List Ev × CaptureOutcome :=
  let c := configPhase lines devs 0 none true
  match c.2 with
  | .crash e => (c.1, .crash e)
  | .earlyFalse => (c.1, .earlyFalse)
  | .proceed r =>
    let a := acqPhase devs 0
    (c.1 ++ beginPhase devs.length ++ a.1 ++ teardownPhase devs.length,
     .done (r && a.2))

/-- Outcome of main: the returned Bool, or an uncaught exception
propagating out of the process. -/
inductive MainOutcome
  | ok (result : Bool)
  | uncaught (e : PyErr)
deriving DecidableEq

/-- Translation of main (main.py lines 514-591) from the point where the
camera list is non-empty: the Init loop at lines 567-569, then capture,
then the DeInit loop at lines 574-583.  An uncaught exception in capture
propagates through main, skipping its DeInit loop. -/
def main_run (devs : List DevSpec) (lines : List String) :
    List Ev × MainOutcome :=
  let pre := (List.range devs.length).map Ev.initCam
  let c := capture devs lines
  match c.2 with
  | .crash e => (pre ++ c.1, .uncaught e)
  | .earlyFalse =>
    (pre ++ c.1 ++ (List.range devs.length).map Ev.deInit, .ok false)
  | .done r =>
    (pre ++ c.1 ++ (List.range devs.length).map Ev.deInit, .ok r)

/-! ## Concrete instances used by the theorems -/

/-- The config-file content named by the spec's testable property:
DeviceSerialNumber ABC123 / Gain 12.5, as readlines() returns it (each
line keeps its trailing newline). -/
def linesAB : List String := ["DeviceSerialNumber\tABC123\n", "Gain\t12.5\n"]

/-- A device whose identity matches no block of linesAB. -/
def devX : DevSpec := ⟨"XYZ999", true, true, fun _ => .complete⟩

/-- Config lines on which the source's scan does match device ABC123: an
extra tab before the newline makes the second tab field of the serial line
exactly ABC123. -/
def linesTrick : List String := ["DeviceSerialNumber\tABC123\t\n", "Gain\t12.5\n"]

/-- A healthy single device for the acquisition-barrier witness. -/
def devW4 : DevSpec := ⟨"ABC123", true, true, fun _ => .complete⟩

/-- A device whose configure_camera fails (SpinnakerException inside it). -/
def devA5 : DevSpec := ⟨"ABC123", true, false, fun _ => .complete⟩

/-- A second healthy device. -/
def devB : DevSpec := ⟨"DEF456", true, true, fun _ => .complete⟩

/-- A device whose first frame retrieval fails. -/
def devA9 : DevSpec := ⟨"ABC123", true, true, fun _ => .retrieveFails⟩

/-- Config lines with matching blocks for ABC123 and DEF456. -/
def lines2 : List String :=
  ["DeviceSerialNumber\tABC123\t\n", "Gain\t12.5\n",
   "DeviceSerialNumber\tDEF456\t\n", "Gain\t3.5\n"]

/-- Config lines whose first block matches AAA111 but is followed by a
Width line instead of a Gain line, plus a well-formed block for BBB222. -/
def linesMal : List String :=
  ["DeviceSerialNumber\tAAA111\t\n", "Width\t5\n",
   "DeviceSerialNumber\tBBB222\t\n", "Gain\t2.0\n"]

/-- The device whose config block is malformed. -/
def devM1 : DevSpec := ⟨"AAA111", true, true, fun _ => .complete⟩

/-- The device whose config block is well-formed. -/
def devM2 : DevSpec := ⟨"BBB222", true, true, fun _ => .complete⟩

/-- A readable entry with integer code 7. -/
def entryOff7 : EnumEntry := ⟨true, true, 7⟩

/-- An unreadable entry. -/
def entryBad : EnumEntry := ⟨true, false, 3⟩

/-- An unavailable enumeration node. -/
def nE1 : FNode := ⟨false, true, true, 100, .gInt 0, fun _ => none⟩

/-- A writable enumeration node whose Off entry is unreadable. -/
def nE2 : FNode :=
  ⟨true, true, true, 100, .gInt 0, fun c => if c = "Off" then some entryBad else none⟩

/-- A writable enumeration node whose Off entry is readable with code 7. -/
def nE3 : FNode :=
  ⟨true, true, true, 100, .gInt 0, fun c => if c = "Off" then some entryOff7 else none⟩

/-- Camera with the three enumeration nodes above. -/
def camW : Camera :=
  ⟨fun n =>
    if n = "E1" then some nE1
    else if n = "E2" then some nE2
    else if n = "E3" then some nE3
    else none⟩

/-- A Width node that is available but not writable. -/
def ndWidthU : FNode := ⟨true, true, false, 640, .gInt 1, fun _ => none⟩

/-- A gated GainAuto node with a readable Off entry. -/
def ndGainAutoU : FNode :=
  ⟨true, true, true, 0, .gInt 5, fun c => if c = "Off" then some entryOff7 else none⟩

/-- A Gain node that is available but not writable. -/
def ndGainU : FNode := ⟨true, true, false, 0, .gStr "d", fun _ => none⟩

/-- Camera whose Width and Gain nodes fail the write gate while GainAuto
passes it. -/
def camU : Camera :=
  ⟨fun n =>
    if n = "Width" then some ndWidthU
    else if n = "GainAuto" then some ndGainAutoU
    else if n = "Gain" then some ndGainU
    else none⟩

/-- Camera on which every node is missing. -/
def camAbsent : Camera := ⟨fun _ => none⟩

/-! ## Claim theorems -/

/-- C1.  The claim says every frame retrieved by acquire_images via
cam.GetNextImage is released exactly once on every code path before the
next retrieval.  Evaluating the translated retrieval loop shows the code
breaks this: an incomplete frame is retrieved and never released (first
conjunct); a frame whose Save raises is retrieved and never released,
the handler only ending acquisition (second conjunct); and running the
same loop body for two frames shows the second retrieval is issued with
the first (incomplete) frame still unreleased (third conjunct).  Only the
complete-and-persisted path releases (fourth conjunct). -/
theorem claim_C1_eval :
    (acquire_images 0 (fun _ => FrameOutcome.incomplete)).1
        = [Ev.getNextImage 0 0]
    ∧ (acquire_images 0 (fun _ => FrameOutcome.saveFails)).1
        = [Ev.getNextImage 0 0, Ev.endAcq 0]
    ∧ (acquireImagesAux 0 (fun _ => FrameOutcome.incomplete) 0 2).1
        = [Ev.getNextImage 0 0, Ev.getNextImage 0 1]
    ∧ (acquire_images 0 (fun _ => FrameOutcome.complete)).1
        = [Ev.getNextImage 0 0, Ev.saveImage 0 0, Ev.releaseFrame 0 0] := by
  refine ⟨rfl, rfl, rfl, rfl⟩

/-- C2.  The claim says that on config content
"DeviceSerialNumber\tABC123\nGain\t12.5\n" the lookup performed in capture
yields 12.5 for identity ABC123 and Absent for XYZ999.  Evaluating the
translated scan shows the code yields Absent for both identities: the
serial field it compares keeps the trailing newline of readlines(), so
"ABC123\n" never equals "ABC123" (first two conjuncts).  The spec-words
lookup (lookupGainSpec) yields 12.5 and Absent as the claim states (last
two conjuncts), so the code, not the claim, is wrong. -/
theorem claim_C2_eval :
    gainScan linesAB "ABC123" none = ScanRes.ok none
    ∧ gainScan linesAB "XYZ999" none = ScanRes.ok none
    ∧ lookupGainSpec linesAB "ABC123" = some "12.5"
    ∧ lookupGainSpec linesAB "XYZ999" = none := by
  refine ⟨by decide, by decide, by decide, by decide⟩

/-- C3.  The claim says a device whose identity matches no config block
proceeds with its default gain after a warning and never fails fatally.
Evaluating the translated session for a single device XYZ999 against the
well-formed config linesAB shows the code instead aborts: after the warning
and cam.Init(), configure_camera(cam, gain) evaluates the never-assigned
gain variable, raising a NameError that no handler catches, so the session
crashes before any acquisition or teardown. -/
theorem claim_C3_eval :
    (capture [devX] linesAB).2 = CaptureOutcome.crash PyErr.nameError
    ∧ (main_run [devX] linesAB).2 = MainOutcome.uncaught PyErr.nameError
    ∧ (main_run [devX] linesAB).1 = [Ev.initCam 0, Ev.initCam 0]
    ∧ Ev.beginAcq 0 ∉ (main_run [devX] linesAB).1
    ∧ Ev.deInit 0 ∉ (main_run [devX] linesAB).1 := by
  refine ⟨by decide, by decide, by decide, by decide, by decide⟩

/-- C10.  configure_camera returns True for every camera state and gain in
the exception-free executions (first conjunct); on a camera where every
node is missing it still returns True while not one setting is applied
(second conjunct: the camera state is untouched) and every per-setting
report is a failure that is only printed, never folded into the result
(third conjunct). -/
theorem claim_C10_success :
    (∀ cam g, (configure_camera cam g).success = true)
    ∧ (configure_camera camAbsent "12.5").cam = camAbsent
    ∧ (configure_camera camAbsent "12.5").reports =
        [Report.enumSet "PixelFormat" "Mono16" .settingUnavailable,
         Report.intSet "Width" false, Report.intSet "Height" false,
         Report.enumSet "TriggerMode" "Off" .settingUnavailable,
         Report.enumSet "TriggerSource" "Line3" .settingUnavailable,
         Report.enumSet "TriggerMode" "On" .settingUnavailable,
         Report.enumSet "SensorShutterMode" "GlobalReset" .settingUnavailable,
         Report.gainSet .enumUnavailable,
         Report.enumSet "AcquisitionMode" "SingleFrame" .settingUnavailable] := by
  refine ⟨fun cam g => rfl, rfl, rfl⟩

/-! ## Helper lemmas on the session trace -/

theorem append_cons_split {α : Type} {x : α} :
    ∀ (A : List α) {B p s : List α}, A ++ B = p ++ x :: s → x ∉ A →
      ∃ q, p = A ++ q ∧ B = q ++ x :: s := by
  intro A
  induction A with
  | nil =>
    intro B p s h _
    exact ⟨p, rfl, by simpa using h⟩
  | cons a A ih =>
    intro B p s h hx
    cases p with
    | nil =>
      rw [List.nil_append] at h
      injection h with h1 h2
      subst h1
      exact absurd (List.mem_cons_self a A) hx
    | cons q p1 =>
      rw [List.cons_append, List.cons_append] at h
      injection h with h1 h2
      subst h1
      obtain ⟨q2, hp, hB⟩ := ih h2 (fun hm => hx (List.mem_cons_of_mem _ hm))
      exact ⟨q2, by rw [hp, List.cons_append], hB⟩

theorem configPhase_events (lines : List String) :
    ∀ (devs : List DevSpec) (i : Nat) (g : Option String) (r : Bool) {e : Ev},
      e ∈ (configPhase lines devs i g r).1 → ∃ k, e = Ev.initCam k := by
  intro devs
  induction devs with
  | nil =>
    intro i g r e h
    simp [configPhase] at h
  | cons d rest ih =>
    intro i g r e h
    simp only [configPhase] at h
    cases hs : gainScan lines d.serial g with
    | err e2 =>
      rw [hs] at h
      simp at h
    | ok go =>
      rw [hs] at h
      cases go with
      | none =>
        simp at h
        exact ⟨i, h⟩
      | some gv =>
        by_cases hc : d.configOk
        · simp [hc] at h
          rcases h with h | h
          · exact ⟨i, h⟩
          · exact ih _ _ _ h
        · simp [hc] at h
          exact ⟨i, h⟩

theorem beginPhase_events {n : Nat} {e : Ev} (h : e ∈ beginPhase n) :
    ∃ k, e = Ev.beginAcq k := by
  rcases List.mem_map.mp h with ⟨k, _, rfl⟩
  exact ⟨k, rfl⟩

theorem beginPhase_mem {n j : Nat} (h : j < n) : Ev.beginAcq j ∈ beginPhase n := by
  exact List.mem_map.mpr ⟨j, List.mem_range.mpr h, rfl⟩

theorem teardownPhase_events {n : Nat} {e : Ev} (h : e ∈ teardownPhase n) :
    ∃ k, e = Ev.endAcq k ∨ e = Ev.deInit k := by
  rcases List.mem_flatten.mp h with ⟨l, hl, hel⟩
  rcases List.mem_map.mp hl with ⟨k, _, rfl⟩
  simp only [List.mem_cons, List.not_mem_nil, or_false] at hel
  rcases hel with h1 | h1
  · exact ⟨k, Or.inl h1⟩
  · exact ⟨k, Or.inr h1⟩

theorem teardownPhase_mem {n j : Nat} (h : j < n) :
    Ev.endAcq j ∈ teardownPhase n ∧ Ev.deInit j ∈ teardownPhase n := by
  constructor
  · exact List.mem_flatten.mpr
      ⟨[Ev.endAcq j, Ev.deInit j],
       List.mem_map.mpr ⟨j, List.mem_range.mpr h, rfl⟩, by simp⟩
  · exact List.mem_flatten.mpr
      ⟨[Ev.endAcq j, Ev.deInit j],
       List.mem_map.mpr ⟨j, List.mem_range.mpr h, rfl⟩, by simp⟩

theorem capture_eq_crash {devs : List DevSpec} {lines : List String} {e : PyErr}
    (h : (configPhase lines devs 0 none true).2 = .crash e) :
    capture devs lines = ((configPhase lines devs 0 none true).1, .crash e) := by
  simp only [capture]
  rw [h]

theorem capture_eq_early {devs : List DevSpec} {lines : List String}
    (h : (configPhase lines devs 0 none true).2 = .earlyFalse) :
    capture devs lines = ((configPhase lines devs 0 none true).1, .earlyFalse) := by
  simp only [capture]
  rw [h]

theorem capture_eq_done {devs : List DevSpec} {lines : List String} {r : Bool}
    (h : (configPhase lines devs 0 none true).2 = .proceed r) :
    capture devs lines =
      ((configPhase lines devs 0 none true).1 ++ beginPhase devs.length
         ++ (acqPhase devs 0).1 ++ teardownPhase devs.length,
       .done (r && (acqPhase devs 0).2)) := by
  simp only [capture]
  rw [h]

theorem main_run_eq_crash {devs : List DevSpec} {lines : List String} {e : PyErr}
    (h : (capture devs lines).2 = .crash e) :
    main_run devs lines =
      ((List.range devs.length).map Ev.initCam ++ (capture devs lines).1,
       .uncaught e) := by
  simp only [main_run]
  rw [h]

theorem main_run_eq_early {devs : List DevSpec} {lines : List String}
    (h : (capture devs lines).2 = .earlyFalse) :
    main_run devs lines =
      ((List.range devs.length).map Ev.initCam ++ (capture devs lines).1
         ++ (List.range devs.length).map Ev.deInit,
       .ok false) := by
  simp only [main_run]
  rw [h]

theorem main_run_eq_done {devs : List DevSpec} {lines : List String} {r : Bool}
    (h : (capture devs lines).2 = .done r) :
    main_run devs lines =
      ((List.range devs.length).map Ev.initCam ++ (capture devs lines).1
         ++ (List.range devs.length).map Ev.deInit,
       .ok r) := by
  simp only [main_run]
  rw [h]

theorem capture_fst_crash {devs : List DevSpec} {lines : List String} {e : PyErr}
    (h : (configPhase lines devs 0 none true).2 = .crash e) :
    (capture devs lines).1 = (configPhase lines devs 0 none true).1 := by
  rw [capture_eq_crash h]

theorem capture_snd_crash {devs : List DevSpec} {lines : List String} {e : PyErr}
    (h : (configPhase lines devs 0 none true).2 = .crash e) :
    (capture devs lines).2 = .crash e := by
  rw [capture_eq_crash h]

theorem capture_fst_early {devs : List DevSpec} {lines : List String}
    (h : (configPhase lines devs 0 none true).2 = .earlyFalse) :
    (capture devs lines).1 = (configPhase lines devs 0 none true).1 := by
  rw [capture_eq_early h]

theorem capture_snd_early {devs : List DevSpec} {lines : List String}
    (h : (configPhase lines devs 0 none true).2 = .earlyFalse) :
    (capture devs lines).2 = .earlyFalse := by
  rw [capture_eq_early h]

theorem capture_fst_done {devs : List DevSpec} {lines : List String} {r : Bool}
    (h : (configPhase lines devs 0 none true).2 = .proceed r) :
    (capture devs lines).1 =
      (configPhase lines devs 0 none true).1 ++ beginPhase devs.length
        ++ (acqPhase devs 0).1 ++ teardownPhase devs.length := by
  rw [capture_eq_done h]

theorem capture_snd_done {devs : List DevSpec} {lines : List String} {r : Bool}
    (h : (configPhase lines devs 0 none true).2 = .proceed r) :
    (capture devs lines).2 = .done (r && (acqPhase devs 0).2) := by
  rw [capture_eq_done h]

theorem main_run_fst_crash {devs : List DevSpec} {lines : List String} {e : PyErr}
    (h : (capture devs lines).2 = .crash e) :
    (main_run devs lines).1 =
      (List.range devs.length).map Ev.initCam ++ (capture devs lines).1 := by
  rw [main_run_eq_crash h]

theorem main_run_snd_crash {devs : List DevSpec} {lines : List String} {e : PyErr}
    (h : (capture devs lines).2 = .crash e) :
    (main_run devs lines).2 = .uncaught e := by
  rw [main_run_eq_crash h]

theorem main_run_fst_early {devs : List DevSpec} {lines : List String}
    (h : (capture devs lines).2 = .earlyFalse) :
    (main_run devs lines).1 =
      (List.range devs.length).map Ev.initCam ++ (capture devs lines).1
        ++ (List.range devs.length).map Ev.deInit := by
  rw [main_run_eq_early h]

theorem main_run_snd_early {devs : List DevSpec} {lines : List String}
    (h : (capture devs lines).2 = .earlyFalse) :
    (main_run devs lines).2 = .ok false := by
  rw [main_run_eq_early h]

theorem main_run_fst_done {devs : List DevSpec} {lines : List String} {r : Bool}
    (h : (capture devs lines).2 = .done r) :
    (main_run devs lines).1 =
      (List.range devs.length).map Ev.initCam ++ (capture devs lines).1
        ++ (List.range devs.length).map Ev.deInit := by
  rw [main_run_eq_done h]

theorem main_run_snd_done {devs : List DevSpec} {lines : List String} {r : Bool}
    (h : (capture devs lines).2 = .done r) :
    (main_run devs lines).2 = .ok r := by
  rw [main_run_eq_done h]

/-- C4.  Acquisition-start barrier: whenever the session trace of main
performs a frame retrieval (cam.GetNextImage) at any position, the
BeginAcquisition call of every device of the fleet already occurred
before it.  This holds because capture runs its BeginAcquisition loop
over the whole camera list (main.py lines 494-495) strictly before the
acquisition loop (lines 496-497), and no retrieval happens on the early
exits. -/
theorem claim_C4_barrier (devs : List DevSpec) (lines : List String)
    (p s : List Ev) (d i : Nat)
    (h : (main_run devs lines).1 = p ++ Ev.getNextImage d i :: s) :
    ∀ j, j < devs.length → Ev.beginAcq j ∈ p := by
  intro j hj
  cases hc : (configPhase lines devs 0 none true).2 with
  | crash e =>
    rw [main_run_fst_crash (capture_snd_crash hc), capture_fst_crash hc] at h
    have hx : Ev.getNextImage d i ∈
        (List.range devs.length).map Ev.initCam
          ++ (configPhase lines devs 0 none true).1 := by
      rw [h]
      exact List.mem_append_right _ (List.mem_cons_self _ _)
    rcases List.mem_append.mp hx with hx | hx
    · rcases List.mem_map.mp hx with ⟨k, _, hk⟩
      exact Ev.noConfusion hk
    · rcases configPhase_events lines devs 0 none true hx with ⟨k, hk⟩
      exact Ev.noConfusion hk
  | earlyFalse =>
    rw [main_run_fst_early (capture_snd_early hc), capture_fst_early hc] at h
    have hx : Ev.getNextImage d i ∈
        (List.range devs.length).map Ev.initCam
          ++ (configPhase lines devs 0 none true).1
          ++ (List.range devs.length).map Ev.deInit := by
      rw [h]
      exact List.mem_append_right _ (List.mem_cons_self _ _)
    rcases List.mem_append.mp hx with hx | hx
    · rcases List.mem_append.mp hx with hx | hx
      · rcases List.mem_map.mp hx with ⟨k, _, hk⟩
        exact Ev.noConfusion hk
      · rcases configPhase_events lines devs 0 none true hx with ⟨k, hk⟩
        exact Ev.noConfusion hk
    · rcases List.mem_map.mp hx with ⟨k, _, hk⟩
      exact Ev.noConfusion hk
  | proceed r =>
    rw [main_run_fst_done (capture_snd_done hc), capture_fst_done hc] at h
    have h2 : ((List.range devs.length).map Ev.initCam
          ++ (configPhase lines devs 0 none true).1 ++ beginPhase devs.length)
        ++ ((acqPhase devs 0).1 ++ (teardownPhase devs.length
          ++ (List.range devs.length).map Ev.deInit))
        = p ++ Ev.getNextImage d i :: s := by
      simpa only [List.append_assoc] using h
    have hxA : Ev.getNextImage d i ∉
        (List.range devs.length).map Ev.initCam
          ++ (configPhase lines devs 0 none true).1 ++ beginPhase devs.length := by
      intro hx
      rcases List.mem_append.mp hx with hx | hx
      · rcases List.mem_append.mp hx with hx | hx
        · rcases List.mem_map.mp hx with ⟨k, _, hk⟩
          exact Ev.noConfusion hk
        · rcases configPhase_events lines devs 0 none true hx with ⟨k, hk⟩
          exact Ev.noConfusion hk
      · rcases beginPhase_events hx with ⟨k, hk⟩
        exact Ev.noConfusion hk
    obtain ⟨q, hp, _⟩ := append_cons_split _ h2 hxA
    rw [hp]
    exact List.mem_append_left _ (List.mem_append_right _ (beginPhase_mem hj))

/-- Witness for C4: a one-device session that reaches retrieval; the
BeginAcquisition call is in the prefix before the retrieval. -/
theorem claim_C4_witness :
    Ev.beginAcq 0 ∈ [Ev.initCam 0, Ev.initCam 0, Ev.beginAcq 0] :=
  claim_C4_barrier [devW4] linesTrick
    [Ev.initCam 0, Ev.initCam 0, Ev.beginAcq 0]
    [Ev.saveImage 0 0, Ev.releaseFrame 0 0, Ev.endAcq 0, Ev.deInit 0, Ev.deInit 0]
    0 0 (by decide) 0 (by decide)

/-- C5.  When some device's configure_camera fails (capture returns False
at main.py line 473), the session aborts: main returns False, no device
ever gets BeginAcquisition, no frame is ever retrieved, and the DeInit
loop of main (lines 574-577) still runs for every device of the fleet,
the failing one included. -/
theorem claim_C5_config_fail (devs : List DevSpec) (lines : List String)
    (h : (capture devs lines).2 = CaptureOutcome.earlyFalse) :
    (main_run devs lines).2 = MainOutcome.ok false
    ∧ (∀ d, Ev.beginAcq d ∉ (main_run devs lines).1)
    ∧ (∀ d i, Ev.getNextImage d i ∉ (main_run devs lines).1)
    ∧ (∀ j, j < devs.length → Ev.deInit j ∈ (main_run devs lines).1) := by
  have hcfg : (configPhase lines devs 0 none true).2 = .earlyFalse := by
    cases hc : (configPhase lines devs 0 none true).2 with
    | crash e =>
      rw [capture_snd_crash hc] at h
      exact CaptureOutcome.noConfusion h
    | earlyFalse => rfl
    | proceed r =>
      rw [capture_snd_done hc] at h
      exact CaptureOutcome.noConfusion h
  have hfst := main_run_fst_early h
  rw [capture_fst_early hcfg] at hfst
  refine ⟨main_run_snd_early h, ?_, ?_, ?_⟩
  · intro d hx
    rw [hfst] at hx
    rcases List.mem_append.mp hx with hx | hx
    · rcases List.mem_append.mp hx with hx | hx
      · rcases List.mem_map.mp hx with ⟨k, _, hk⟩
        exact Ev.noConfusion hk
      · rcases configPhase_events lines devs 0 none true hx with ⟨k, hk⟩
        exact Ev.noConfusion hk
    · rcases List.mem_map.mp hx with ⟨k, _, hk⟩
      exact Ev.noConfusion hk
  · intro d i hx
    rw [hfst] at hx
    rcases List.mem_append.mp hx with hx | hx
    · rcases List.mem_append.mp hx with hx | hx
      · rcases List.mem_map.mp hx with ⟨k, _, hk⟩
        exact Ev.noConfusion hk
      · rcases configPhase_events lines devs 0 none true hx with ⟨k, hk⟩
        exact Ev.noConfusion hk
    · rcases List.mem_map.mp hx with ⟨k, _, hk⟩
      exact Ev.noConfusion hk
  · intro j hj
    rw [hfst]
    exact List.mem_append_right _
      (List.mem_map.mpr ⟨j, List.mem_range.mpr hj, rfl⟩)

/-- Witness for C5: two devices, A's configure_camera fails and B's would
succeed; main returns False, device 0 never begins acquisition, and both
devices are deinitialized. -/
theorem claim_C5_witness :
    (main_run [devA5, devB] lines2).2 = MainOutcome.ok false
    ∧ Ev.beginAcq 0 ∉ (main_run [devA5, devB] lines2).1
    ∧ Ev.deInit 0 ∈ (main_run [devA5, devB] lines2).1
    ∧ Ev.deInit 1 ∈ (main_run [devA5, devB] lines2).1 := by
  have h := claim_C5_config_fail [devA5, devB] lines2 (by decide)
  exact ⟨h.1, h.2.1 0, h.2.2.2 0 (by decide), h.2.2.2 1 (by decide)⟩

theorem configPhase_proceed_result (lines : List String) :
    ∀ (devs : List DevSpec) (i : Nat) (g : Option String) (r0 r : Bool),
      (configPhase lines devs i g r0).2 = .proceed r →
      r = (r0 && devs.all fun d => d.infoOk) := by
  intro devs
  induction devs with
  | nil =>
    intro i g r0 r h
    simp only [configPhase] at h
    injection h with h
    simp [h.symm]
  | cons d rest ih =>
    intro i g r0 r h
    simp only [configPhase] at h
    cases hs : gainScan lines d.serial g with
    | err e =>
      rw [hs] at h
      simp at h
    | ok go =>
      rw [hs] at h
      cases go with
      | none => simp at h
      | some gv =>
        by_cases hc : d.configOk
        · simp only [hc, if_true] at h
          have := ih _ _ _ _ h
          rw [this]
          simp [Bool.and_assoc]
        · simp [hc] at h

theorem acqPhase_false :
    ∀ (devs : List DevSpec) (i j : Nat) (dv : DevSpec),
      devs.get? j = some dv → (acquire_images (i + j) dv.frames).2 = false →
      (acqPhase devs i).2 = false := by
  intro devs
  induction devs with
  | nil =>
    intro i j dv h
    simp at h
  | cons d rest ih =>
    intro i j dv hg hf
    cases j with
    | zero =>
      have hd : d = dv := by simpa using hg
      subst hd
      show ((acquire_images i d.frames).2 && (acqPhase rest (i + 1)).2) = false
      rw [show (acquire_images i d.frames).2 = false by simpa using hf]
      simp
    | succ j2 =>
      have hg2 : rest.get? j2 = some dv := by simpa using hg
      have hf2 : (acquire_images ((i + 1) + j2) dv.frames).2 = false := by
        rw [show (i + 1) + j2 = i + (j2 + 1) by omega]
        exact hf
      show ((acquire_images i d.frames).2 && (acqPhase rest (i + 1)).2) = false
      rw [ih (i + 1) j2 dv hg2 hf2]
      simp

theorem acqPhase_contains :
    ∀ (devs : List DevSpec) (i j : Nat) (dv : DevSpec),
      devs.get? j = some dv →
      ∃ u v, (acqPhase devs i).1
        = u ++ (acquire_images (i + j) dv.frames).1 ++ v := by
  intro devs
  induction devs with
  | nil =>
    intro i j dv h
    simp at h
  | cons d rest ih =>
    intro i j dv hg
    cases j with
    | zero =>
      have hd : d = dv := by simpa using hg
      subst hd
      refine ⟨[], (acqPhase rest (i + 1)).1, ?_⟩
      show (acquire_images i d.frames).1 ++ (acqPhase rest (i + 1)).1 = _
      simp
    | succ j2 =>
      have hg2 : rest.get? j2 = some dv := by simpa using hg
      obtain ⟨u, v, huv⟩ := ih (i + 1) j2 dv hg2
      refine ⟨(acquire_images i d.frames).1 ++ u, v, ?_⟩
      show (acquire_images i d.frames).1 ++ (acqPhase rest (i + 1)).1 = _
      rw [huv, show (i + 1) + j2 = i + (j2 + 1) by omega]
      simp [List.append_assoc]

/-- C7 counterexample.  The claim says a malformed block (a matching
DeviceSerialNumber line not immediately followed by a Gain line) aborts
configuration only for that device while every other device proceeds
through configuration and acquisition normally.  Concretely: device 0
(AAA111) has a malformed block in linesMal and device 1 (BBB222) has a
well-formed one; the ValueError raised at main.py line 459 is caught by
no handler, so capture performs no further call at all (its trace is
empty), device 1 is never configured, never begins acquisition, never
retrieves a frame and is never deinitialized, and the whole process
aborts with the uncaught ValueError. -/
theorem claim_C7_counterexample :
    (capture [devM1, devM2] linesMal).2 = CaptureOutcome.crash PyErr.valueError
    ∧ (capture [devM1, devM2] linesMal).1 = []
    ∧ (main_run [devM1, devM2] linesMal).2 = MainOutcome.uncaught PyErr.valueError
    ∧ Ev.beginAcq 1 ∉ (main_run [devM1, devM2] linesMal).1
    ∧ Ev.getNextImage 1 0 ∉ (main_run [devM1, devM2] linesMal).1
    ∧ Ev.deInit 1 ∉ (main_run [devM1, devM2] linesMal).1 := by
  refine ⟨by decide, by decide, by decide, by decide, by decide, by decide⟩

/-- C7 amended.  When the config scan raises ValueError (a matching
DeviceSerialNumber line not immediately followed by a Gain line,
main.py line 459), the exception propagates uncaught and the entire
session aborts: main ends with the uncaught ValueError and no device —
neither the one with the malformed block nor any other — begins
acquisition, retrieves a frame, ends acquisition or is deinitialized. -/
theorem claim_C7_amended (devs : List DevSpec) (lines : List String)
    (h : (capture devs lines).2 = CaptureOutcome.crash PyErr.valueError) :
    (main_run devs lines).2 = MainOutcome.uncaught PyErr.valueError
    ∧ (∀ d, Ev.beginAcq d ∉ (main_run devs lines).1)
    ∧ (∀ d i, Ev.getNextImage d i ∉ (main_run devs lines).1)
    ∧ (∀ d, Ev.endAcq d ∉ (main_run devs lines).1)
    ∧ (∀ d, Ev.deInit d ∉ (main_run devs lines).1) := by
  have hcfg : (configPhase lines devs 0 none true).2 = .crash .valueError := by
    cases hc : (configPhase lines devs 0 none true).2 with
    | crash e =>
      have he := (capture_snd_crash hc).symm.trans h
      injection he with he
      rw [he]
    | earlyFalse =>
      rw [capture_snd_early hc] at h
      exact CaptureOutcome.noConfusion h
    | proceed r =>
      rw [capture_snd_done hc] at h
      exact CaptureOutcome.noConfusion h
  have hfst := main_run_fst_crash h
  rw [capture_fst_crash hcfg] at hfst
  have honly : ∀ e : Ev, e ∈ (main_run devs lines).1 → ∃ k, e = Ev.initCam k := by
    intro e he
    rw [hfst] at he
    rcases List.mem_append.mp he with he | he
    · rcases List.mem_map.mp he with ⟨k, _, hk⟩
      exact ⟨k, hk.symm⟩
    · exact configPhase_events lines devs 0 none true he
  refine ⟨main_run_snd_crash h, ?_, ?_, ?_, ?_⟩
  · intro d hx
    rcases honly _ hx with ⟨k, hk⟩
    exact Ev.noConfusion hk
  · intro d i hx
    rcases honly _ hx with ⟨k, hk⟩
    exact Ev.noConfusion hk
  · intro d hx
    rcases honly _ hx with ⟨k, hk⟩
    exact Ev.noConfusion hk
  · intro d hx
    rcases honly _ hx with ⟨k, hk⟩
    exact Ev.noConfusion hk

/-- Witness for the amended C7 at the concrete malformed session. -/
theorem claim_C7_witness :
    (main_run [devM1, devM2] linesMal).2 = MainOutcome.uncaught PyErr.valueError
    ∧ Ev.beginAcq 0 ∉ (main_run [devM1, devM2] linesMal).1
    ∧ Ev.deInit 0 ∉ (main_run [devM1, devM2] linesMal).1 := by
  have h := claim_C7_amended [devM1, devM2] linesMal (by decide)
  exact ⟨h.1, h.2.1 0, h.2.2.2.2 0⟩

/-- C9.  When the session reaches acquisition and some device's retrieval
fails, the loops of capture still run the image-buffer cycle of every
device (each device's acquire_images trace appears contiguously in the
session trace), EndAcquisition and DeInit are still executed for every
device including the failing one (main.py lines 503-505), and the overall
result is False: the logical AND of the per-device print_device_info and
acquisition outcomes. -/
theorem claim_C9_partial_failure (devs : List DevSpec) (lines : List String)
    (r : Bool) (d : Nat) (dv : DevSpec)
    (hdone : (capture devs lines).2 = CaptureOutcome.done r)
    (hget : devs.get? d = some dv)
    (hfail : (acquire_images d dv.frames).2 = false) :
    (∀ j dw, devs.get? j = some dw →
        Ev.endAcq j ∈ (capture devs lines).1
        ∧ Ev.deInit j ∈ (capture devs lines).1
        ∧ ∃ u v, (capture devs lines).1
            = u ++ (acquire_images j dw.frames).1 ++ v)
    ∧ r = false
    ∧ r = ((devs.all fun dw => dw.infoOk) && (acqPhase devs 0).2) := by
  have hcfg : ∃ r0, (configPhase lines devs 0 none true).2 = .proceed r0 := by
    cases hc : (configPhase lines devs 0 none true).2 with
    | crash e =>
      rw [capture_snd_crash hc] at hdone
      exact CaptureOutcome.noConfusion hdone
    | earlyFalse =>
      rw [capture_snd_early hc] at hdone
      exact CaptureOutcome.noConfusion hdone
    | proceed r0 => exact ⟨r0, rfl⟩
  obtain ⟨r0, hc⟩ := hcfg
  have heq := (capture_snd_done hc).symm.trans hdone
  injection heq with heq
  have hr : r = (r0 && (acqPhase devs 0).2) := heq.symm
  have hfst := capture_fst_done hc
  have hacq : (acqPhase devs 0).2 = false :=
    acqPhase_false devs 0 d dv hget (by simpa using hfail)
  refine ⟨?_, by rw [hr, hacq]; simp, ?_⟩
  · intro j dw hg
    have hj : j < devs.length := (List.get?_eq_some.mp hg).1
    refine ⟨?_, ?_, ?_⟩
    · rw [hfst]
      exact List.mem_append_right _ (teardownPhase_mem hj).1
    · rw [hfst]
      exact List.mem_append_right _ (teardownPhase_mem hj).2
    · obtain ⟨u, v, huv⟩ := acqPhase_contains devs 0 j dw hg
      rw [Nat.zero_add] at huv
      refine ⟨(configPhase lines devs 0 none true).1 ++ beginPhase devs.length
        ++ u, v ++ teardownPhase devs.length, ?_⟩
      rw [hfst, huv]
      simp [List.append_assoc]
  · have h0 := configPhase_proceed_result lines devs 0 none true r0 hc
    rw [hr, h0]
    simp

/-- Witness for C9: device 0's first retrieval fails while device 1
completes; teardown still covers both devices and device 1's buffer cycle
appears in the trace. -/
theorem claim_C9_witness :
    Ev.endAcq 0 ∈ (capture [devA9, devB] lines2).1
    ∧ Ev.deInit 0 ∈ (capture [devA9, devB] lines2).1
    ∧ Ev.endAcq 1 ∈ (capture [devA9, devB] lines2).1
    ∧ ∃ u v, (capture [devA9, devB] lines2).1
        = u ++ (acquire_images 1 devB.frames).1 ++ v := by
  have h := claim_C9_partial_failure [devA9, devB] lines2 false 0 devA9
    (by decide) rfl (by decide)
  exact ⟨(h.1 0 devA9 rfl).1, (h.1 0 devA9 rfl).2.1, (h.1 1 devB rfl).1,
    (h.1 1 devB rfl).2.2⟩

/-! ## Node-level lemmas for the configuration claims -/

theorem setNodeValue_preserve_ne (cam : Camera) (name : String) (v : GenValue)
    {n : String} (h : n ≠ name) :
    (setNodeValue cam name v).nodemap n = cam.nodemap n := by
  simp [setNodeValue, h]

theorem change_enum_setting_ne (cam : Camera) (s c : String) {n : String}
    (hn : n ≠ s) :
    (change_enum_setting cam s c).2.nodemap n = cam.nodemap n := by
  unfold change_enum_setting
  cases hs : cam.nodemap s with
  | none => rfl
  | some node =>
    by_cases hw : (node.available && node.writable) = true
    · cases he : node.entries c with
      | none => simp [hw, he]
      | some entry =>
        by_cases hr : (entry.available && entry.readable) = true
        · simp [hw, he, hr, setNodeValue_preserve_ne _ _ _ hn]
        · simp [hw, he, hr]
    · simp [hw]

theorem change_enum_setting_gate (cam : Camera) (s c : String) {nd : FNode}
    (h : cam.nodemap s = some nd) (hg : (nd.available && nd.writable) = false) :
    (change_enum_setting cam s c).2 = cam := by
  simp [change_enum_setting, h, hg]

theorem setIntMax_ne (cam : Camera) (m : String) {n : String} (hn : n ≠ m) :
    (setIntMax cam m).2.nodemap n = cam.nodemap n := by
  unfold setIntMax
  cases hs : cam.nodemap m with
  | none => rfl
  | some nd =>
    by_cases hw : (nd.available && nd.writable) = true
    · simp [hw, setNodeValue_preserve_ne _ _ _ hn]
    · simp [hw]

theorem setIntMax_gate (cam : Camera) (m : String) {nd : FNode}
    (h : cam.nodemap m = some nd) (hg : (nd.available && nd.writable) = false) :
    (setIntMax cam m).2 = cam := by
  simp [setIntMax, h, hg]

theorem change_gain_preserve (cam : Camera) (g : String) {n : String} {nd : FNode}
    (h : cam.nodemap n = some nd) (hg : (nd.available && nd.writable) = false) :
    (change_gain cam g).2.nodemap n = some nd := by
  unfold change_gain
  cases hga : cam.nodemap "GainAuto" with
  | none => exact h
  | some nga =>
    by_cases hw : (nga.available && nga.writable) = true
    · cases he : nga.entries "Off" with
      | none => simp [hw, he, h]
      | some e =>
        by_cases hr : (e.available && e.readable) = true
        · by_cases hn : n = "GainAuto"
          · subst hn
            rw [h] at hga
            injection hga with hga
            rw [hga] at hg
            rw [hg] at hw
            exact Bool.noConfusion hw
          · have hc1 : (setNodeValue cam "GainAuto"
                (GenValue.gInt e.intValue)).nodemap n = some nd := by
              rw [setNodeValue_preserve_ne _ _ _ hn]
              exact h
            cases hG : (setNodeValue cam "GainAuto"
                (GenValue.gInt e.intValue)).nodemap "Gain" with
            | none => simp [hw, he, hr, hG, hc1]
            | some ng =>
              by_cases hgw : (ng.available && ng.writable) = true
              · by_cases hn2 : n = "Gain"
                · subst hn2
                  rw [hc1] at hG
                  injection hG with hG
                  rw [hG] at hg
                  rw [hg] at hgw
                  exact Bool.noConfusion hgw
                · simp [hw, he, hr, hG, hgw,
                    setNodeValue_preserve_ne _ _ _ hn2, hc1]
              · simp [hw, he, hr, hG, hgw, hc1]
        · simp [hw, he, hr, h]
    · simp [hw, h]

theorem applyOp_preserve (g : String) (cam : Camera) (op : SettingOp)
    {n : String} {nd : FNode}
    (h : cam.nodemap n = some nd) (hg : (nd.available && nd.writable) = false) :
    (applyOp g cam op).2.nodemap n = some nd := by
  cases op with
  | enum s c =>
    show (change_enum_setting cam s c).2.nodemap n = some nd
    by_cases hn : n = s
    · subst hn
      rw [change_enum_setting_gate cam n c h hg]
      exact h
    · rw [change_enum_setting_ne cam s c hn]
      exact h
  | intMax m =>
    show (setIntMax cam m).2.nodemap n = some nd
    by_cases hn : n = m
    · subst hn
      rw [setIntMax_gate cam n h hg]
      exact h
    · rw [setIntMax_ne cam m hn]
      exact h
  | gainOp =>
    show (change_gain cam g).2.nodemap n = some nd
    exact change_gain_preserve cam g h hg

theorem runOps_preserve (g : String) :
    ∀ (ops : List SettingOp) (cam : Camera) {n : String} {nd : FNode},
      cam.nodemap n = some nd → (nd.available && nd.writable) = false →
      (runOps g cam ops).2.nodemap n = some nd := by
  intro ops
  induction ops with
  | nil =>
    intro cam n nd h _
    exact h
  | cons op rest ih =>
    intro cam n nd h hg
    show (runOps g (applyOp g cam op).2 rest).2.nodemap n = some nd
    exact ih _ (applyOp_preserve g cam op h hg) hg

theorem applyOp_fail (g : String) (cam : Camera) (op : SettingOp)
    {n : String} {nd : FNode} (ht : opTargets op n = true)
    (h : cam.nodemap n = some nd) (hg : (nd.available && nd.writable) = false) :
    reportFails n (applyOp g cam op).1 = true := by
  cases op with
  | enum s c =>
    have hs : s = n := by simpa [opTargets] using ht
    subst hs
    have hres : (change_enum_setting cam s c).1 = .settingUnavailable := by
      simp [change_enum_setting, h, hg]
    show reportFails s (Report.enumSet s c (change_enum_setting cam s c).1) = true
    rw [hres]
    simp [reportFails]
  | intMax m =>
    have hs : m = n := by simpa [opTargets] using ht
    subst hs
    have hres : (setIntMax cam m).1 = false := by
      simp [setIntMax, h, hg]
    show reportFails m (Report.intSet m (setIntMax cam m).1) = true
    rw [hres]
    simp [reportFails]
  | gainOp =>
    have hs : n = "GainAuto" := by simpa [opTargets] using ht
    subst hs
    have hres : (change_gain cam g).1 = .enumUnavailable := by
      simp [change_gain, h, hg]
    show reportFails "GainAuto" (Report.gainSet (change_gain cam g).1) = true
    rw [hres]
    rfl

theorem runOps_fail (g : String) :
    ∀ (ops : List SettingOp) (cam : Camera) {n : String} {nd : FNode},
      cam.nodemap n = some nd → (nd.available && nd.writable) = false →
      (∃ op ∈ ops, opTargets op n = true) →
      ∃ rep ∈ (runOps g cam ops).1, reportFails n rep = true := by
  intro ops
  induction ops with
  | nil =>
    intro cam n nd _ _ hex
    rcases hex with ⟨op, hop, _⟩
    simp at hop
  | cons op rest ih =>
    intro cam n nd h hg hex
    rcases hex with ⟨op2, hop2, ht⟩
    rcases List.mem_cons.mp hop2 with heq | hmem
    · subst heq
      refine ⟨(applyOp g cam op2).1, ?_, applyOp_fail g cam op2 ht h hg⟩
      show _ ∈ (applyOp g cam op2).1 :: (runOps g (applyOp g cam op2).2 rest).1
      exact List.mem_cons_self _ _
    · obtain ⟨rep, hrep, hfail⟩ :=
        ih (applyOp g cam op).2 (applyOp_preserve g cam op h hg) hg ⟨op2, hmem, ht⟩
      refine ⟨rep, ?_, hfail⟩
      show _ ∈ (applyOp g cam op).1 :: (runOps g (applyOp g cam op).2 rest).1
      exact List.mem_cons_of_mem _ hrep

/-- C6.  Behaviour of change_enum_setting at every call: when the
enumeration node is missing or fails its availability/writability gate,
the call reports the setting as unavailable and changes nothing; when the
enumeration is writable but the named entry is missing or fails its
availability/readability gate, the call reports the entry as unavailable
and changes nothing, even though the parent is writable; on success it
reads the entry's integer code and writes exactly that integer to the
parent enumeration node, leaving every other node untouched and leaving
the entry map of every node (the entry nodes themselves) unchanged. -/
theorem claim_C6_enum_resolution (cam : Camera) (s c : String) :
    (cam.nodemap s = none →
       change_enum_setting cam s c = (EnumSetResult.settingUnavailable, cam))
    ∧ (∀ nd, cam.nodemap s = some nd → (nd.available && nd.writable) = false →
       change_enum_setting cam s c = (EnumSetResult.settingUnavailable, cam))
    ∧ (∀ nd, cam.nodemap s = some nd → (nd.available && nd.writable) = true →
        ((nd.entries c = none →
            change_enum_setting cam s c = (EnumSetResult.entryUnavailable, cam))
         ∧ (∀ e, nd.entries c = some e → (e.available && e.readable) = false →
            change_enum_setting cam s c = (EnumSetResult.entryUnavailable, cam))))
    ∧ (∀ nd e, cam.nodemap s = some nd → (nd.available && nd.writable) = true →
        nd.entries c = some e → (e.available && e.readable) = true →
        (change_enum_setting cam s c).1 = EnumSetResult.ok e.intValue
        ∧ ((change_enum_setting cam s c).2).nodemap s
            = some { nd with value := GenValue.gInt e.intValue }
        ∧ (∀ n, n ≠ s →
            ((change_enum_setting cam s c).2).nodemap n = cam.nodemap n)
        ∧ (∀ n, (((change_enum_setting cam s c).2).nodemap n).map FNode.entries
            = (cam.nodemap n).map FNode.entries)) := by
  refine ⟨?_, ?_, ?_, ?_⟩
  · intro h
    simp [change_enum_setting, h]
  · intro nd h hg
    simp [change_enum_setting, h, hg]
  · intro nd h hw
    refine ⟨?_, ?_⟩
    · intro he
      simp [change_enum_setting, h, hw, he]
    · intro e he hr
      simp [change_enum_setting, h, hw, he, hr]
  · intro nd e h hw he hr
    refine ⟨?_, ?_, ?_, ?_⟩
    · simp [change_enum_setting, h, hw, he, hr]
    · simp [change_enum_setting, h, hw, he, hr, setNodeValue]
    · intro n hn
      simp [change_enum_setting, h, hw, he, hr, setNodeValue_preserve_ne _ _ _ hn]
    · intro n
      by_cases hn : n = s
      · subst hn
        simp [change_enum_setting, h, hw, he, hr, setNodeValue]
      · simp [change_enum_setting, h, hw, he, hr,
          setNodeValue_preserve_ne _ _ _ hn]

/-- Witness for C6: on camW, the unavailable node E1 reports setting
unavailable, the writable node E2 with an unreadable Off entry reports
entry unavailable, and the healthy node E3 gets the entry code 7 written
to the enumeration node itself. -/
theorem claim_C6_witness :
    change_enum_setting camW "E1" "Off" = (EnumSetResult.settingUnavailable, camW)
    ∧ change_enum_setting camW "E2" "Off" = (EnumSetResult.entryUnavailable, camW)
    ∧ (change_enum_setting camW "E3" "Off").1 = EnumSetResult.ok 7
    ∧ ((change_enum_setting camW "E3" "Off").2).nodemap "E3"
        = some { nE3 with value := GenValue.gInt 7 } := by
  have h1 := (claim_C6_enum_resolution camW "E1" "Off").2.1 nE1 rfl rfl
  have h2 := ((claim_C6_enum_resolution camW "E2" "Off").2.2.1 nE2 rfl rfl).2
    entryBad rfl rfl
  have h34 := (claim_C6_enum_resolution camW "E3" "Off").2.2.2 nE3 entryOff7
    rfl rfl rfl rfl
  exact ⟨h1, h2, h34.1, h34.2.1⟩

/-- C8.  Gated configuration writes: for every node that fails its
availability-and-writability gate, the whole of configure_camera leaves
that node exactly as it was (no write is performed and the stored value is
unchanged — the setting steps change no flags, so the gate at call time
equals the gate at entry); for each of the setting nodes configure_camera
unconditionally attempts, a failure report (the printed message) is
emitted for that node; and the conditional Gain write of change_gain,
reached after a successful GainAuto resolution, fails and leaves the Gain
node unchanged when the Gain node is not writable. -/
theorem claim_C8_gated_writes (cam : Camera) (gain : String) :
    (∀ n nd, cam.nodemap n = some nd → (nd.available && nd.writable) = false →
       (configure_camera cam gain).cam.nodemap n = some nd)
    ∧ (∀ n nd, n ∈ cfgNodeNames → cam.nodemap n = some nd →
        (nd.available && nd.writable) = false →
        ∃ rep ∈ (configure_camera cam gain).reports, reportFails n rep = true)
    ∧ (∀ nga e ndG, cam.nodemap "GainAuto" = some nga →
        (nga.available && nga.writable) = true →
        nga.entries "Off" = some e → (e.available && e.readable) = true →
        cam.nodemap "Gain" = some ndG →
        (ndG.available && ndG.writable) = false →
        (change_gain cam gain).1 = GainResult.floatUnavailable
        ∧ (change_gain cam gain).2.nodemap "Gain" = some ndG) := by
  refine ⟨?_, ?_, ?_⟩
  · intro n nd h hg
    show (runOps gain cam configOps).2.nodemap n = some nd
    exact runOps_preserve gain configOps cam h hg
  · intro n nd hmem h hg
    show ∃ rep ∈ (runOps gain cam configOps).1, reportFails n rep = true
    simp only [cfgNodeNames, List.mem_cons, List.not_mem_nil, or_false] at hmem
    rcases hmem with rfl | rfl | rfl | rfl | rfl | rfl | rfl | rfl
    · exact runOps_fail gain configOps cam h hg
        ⟨.enum "PixelFormat" "Mono16", by decide, by decide⟩
    · exact runOps_fail gain configOps cam h hg
        ⟨.intMax "Width", by decide, by decide⟩
    · exact runOps_fail gain configOps cam h hg
        ⟨.intMax "Height", by decide, by decide⟩
    · exact runOps_fail gain configOps cam h hg
        ⟨.enum "TriggerMode" "Off", by decide, by decide⟩
    · exact runOps_fail gain configOps cam h hg
        ⟨.enum "TriggerSource" "Line3", by decide, by decide⟩
    · exact runOps_fail gain configOps cam h hg
        ⟨.enum "SensorShutterMode" "GlobalReset", by decide, by decide⟩
    · exact runOps_fail gain configOps cam h hg
        ⟨.gainOp, by decide, by decide⟩
    · exact runOps_fail gain configOps cam h hg
        ⟨.enum "AcquisitionMode" "SingleFrame", by decide, by decide⟩
  · intro nga e ndG h1 h2 h3 h4 h5 h6
    have hne : ("Gain" : String) ≠ "GainAuto" := by decide
    have hc1 : (setNodeValue cam "GainAuto"
        (GenValue.gInt e.intValue)).nodemap "Gain" = some ndG := by
      rw [setNodeValue_preserve_ne _ _ _ hne]
      exact h5
    constructor
    · simp [change_gain, h1, h2, h3, h4, hc1, h6]
    · simp [change_gain, h1, h2, h3, h4, hc1, h6]

/-- Witness for C8: on camU the unwritable Width node is untouched by the
whole configuration and its failure is reported, and the Gain write fails
because the Gain node is unwritable although GainAuto resolved. -/
theorem claim_C8_witness :
    (configure_camera camU "12.5").cam.nodemap "Width" = some ndWidthU
    ∧ (∃ rep ∈ (configure_camera camU "12.5").reports,
        reportFails "Width" rep = true)
    ∧ (change_gain camU "12.5").1 = GainResult.floatUnavailable := by
  have h := claim_C8_gated_writes camU "12.5"
  exact ⟨h.1 "Width" ndWidthU rfl rfl,
    h.2.1 "Width" ndWidthU (by decide) rfl rfl,
    (h.2.2 ndGainAutoU entryOff7 ndGainU rfl rfl rfl rfl rfl rfl).1⟩
